import Mathlib

/-!
Shallow embedding of the audit/change-tracking workflow of the DefaultApp
repository (src/src/pages/Profile.tsx and src/src/pages/Login.tsx, data
shapes from the shared type declarations and the SQL migrations).

The identity provider and the record store are external to the repository;
per the external-interface contract every store insert/update returns an
ok-or-error result value to the caller (it does not raise), and the identity
provider returns either a resolved session or an error value.  They are
therefore modelled as parameters of the embedded functions: a boolean
outcome per store call and an `AuthResult` for the sign-in call.  Each
page-level handler is embedded as a pure function from its inputs and those
outcomes to the list of observable effects it performs, in order (store
writes, toast notifications, reloads, navigation); internal console logging
of a swallowed audit-write failure is the `logInsertError` event.
-/

namespace ProfilePage

/-- Profile row, as selected from the `profiles` table: `id`, `first_name`
and `last_name` are non-null text columns, `phone_number` is nullable. -/
structure Profile where
  id : String
  first_name : String
  last_name : String
  phone_number : Option String
  created_at : String
  updated_at : String
  deriving DecidableEq

/-- Values submitted through the profile form (`profileSchema`): first and
last name are strings, the phone number is optional. -/
structure ProfileForm where
  firstName : String
  lastName : String
  phoneNumber : Option String
  deriving DecidableEq

/-- Row payload of an insert into `profile_changes`, as built by
`recordProfileChange`. -/
structure ProfileChangeInsert where
  user_id : String
  field_changed : String
  old_value : Option String
  new_value : Option String
  changed_by : String
  deriving DecidableEq

/-- Column set written by the `profiles` update issued in `onSubmit`. -/
structure ProfileUpdate where
  first_name : String
  last_name : String
  phone_number : Option String
  updated_at : String
  deriving DecidableEq

/-- Observable effects of one profile mutation cycle, in program order. -/
inductive PEvent
  | insertChange (rec : ProfileChangeInsert)
  | logInsertError
  | updateProfile (id : String) (upd : ProfileUpdate)
  | toastSuccess
  | toastError (msg : String)
  | reloadProfile
  | reloadChanges
  deriving DecidableEq

/-- JavaScript `v || null` on a nullable string value: the empty string is
falsy, so it collapses to null; any other string passes through. -/
def orNull : Option String → Option String
  | none => none
  | some s => if s = "" then none else some s

/-- Embedding of `recordProfileChange` (Profile.tsx lines 91-107): bails out
when no user is present, otherwise issues exactly one `profile_changes`
insert with `changed_by` equal to `user_id`; a failed insert is only logged
(`console.error`), never re-raised, so the function returns normally in
every case. -/
def recordProfileChange (user : Option String) (fieldName : String)
    (oldValue newValue : Option String) (insertOk : Bool) : List PEvent :=
  match user with
  | none => []
  | some uid =>
      PEvent.insertChange ⟨uid, fieldName, oldValue, newValue, uid⟩ ::
        (if insertOk then [] else [PEvent.logInsertError])

/-- Embedding of the profile-form `onSubmit` (Profile.tsx lines 109-142).
`user` is the authenticated identity, `profile` the loaded snapshot, `data`
the submitted form, `now` the timestamp taken at submit time; `insertOk`
gives the store outcome of the audit insert for each field and `updateOk`
the outcome of the `profiles` update.  The guard returns with no effects
when user or snapshot is missing; each field is diffed with strict
inequality; the phone-number values recorded are normalised with
`orNull`; the update is always issued after the audit inserts, and on
update failure the catch produces only an error toast (no success toast,
no reload). -/
def onSubmit (user : Option String) (profile : Option Profile)
    (data : ProfileForm) (now : String) (insertOk : String → Bool)
    (updateOk : Bool) : List PEvent :=
  match user, profile with
  | some uid, some p =>
      (if data.firstName ≠ p.first_name then
         recordProfileChange (some uid) "first_name" (some p.first_name)
           (some data.firstName) (insertOk "first_name")
       else [])
      ++ (if data.lastName ≠ p.last_name then
            recordProfileChange (some uid) "last_name" (some p.last_name)
              (some data.lastName) (insertOk "last_name")
          else [])
      ++ (if data.phoneNumber ≠ p.phone_number then
            recordProfileChange (some uid) "phone_number"
              (orNull p.phone_number) (orNull data.phoneNumber)
              (insertOk "phone_number")
          else [])
      ++ PEvent.updateProfile uid
           ⟨data.firstName, data.lastName, data.phoneNumber, now⟩ ::
         (if updateOk then
            [PEvent.toastSuccess, PEvent.reloadProfile, PEvent.reloadChanges]
          else [PEvent.toastError "Failed to update profile"])
  | _, _ => []

/-- Rows inserted into `profile_changes` during a cycle, in order. -/
def insertedChanges (tr : List PEvent) : List ProfileChangeInsert :=
  tr.filterMap fun e =>
    match e with
    | PEvent.insertChange r => some r
    | _ => none

/-- Updates issued against the `profiles` row during a cycle, in order. -/
def profileUpdates (tr : List PEvent) : List (String × ProfileUpdate) :=
  tr.filterMap fun e =>
    match e with
    | PEvent.updateProfile i u => some (i, u)
    | _ => none

/-- Recogniser for the `profiles`-update event. -/
def isUpdateEvent : PEvent → Bool
  | PEvent.updateProfile _ _ => true
  | _ => false

/-- Recogniser for the `profile_changes`-insert event. -/
def isInsertChangeEvent : PEvent → Bool
  | PEvent.insertChange _ => true
  | _ => false

/-- Recogniser for the internal console log of a swallowed audit failure. -/
def isLogEvent : PEvent → Bool
  | PEvent.logInsertError => true
  | _ => false

/-- Holds when no `profile_changes` insert is issued at or after the first
`profiles` update: together with uniqueness of the update this says every
audit insert is issued strictly before the update. -/
def insertsPrecedeUpdates (tr : List PEvent) : Bool :=
  (tr.dropWhile fun e => !isUpdateEvent e).all fun e => !isInsertChangeEvent e

/-- Trace restricted to store writes and user-visible effects, dropping the
internal console log entries. -/
def storeAndUiEvents (tr : List PEvent) : List PEvent :=
  tr.filter fun e => !isLogEvent e

/-- Number of the three mutable fields on which the submitted form differs
from the loaded snapshot, under the strict comparison the code uses. -/
def diffCount (p : Profile) (d : ProfileForm) : Nat :=
  (if d.firstName ≠ p.first_name then 1 else 0)
  + (if d.lastName ≠ p.last_name then 1 else 0)
  + (if d.phoneNumber ≠ p.phone_number then 1 else 0)

/-- In-memory Profile snapshot after a cycle: `setProfile` runs only inside
`loadProfile`, so the snapshot changes (to whatever row the reload returns)
exactly when the cycle reached the reload step. -/
def finalSnapshot (tr : List PEvent) (current : Option Profile)
    (reloaded : Profile) : Option Profile :=
  if PEvent.reloadProfile ∈ tr then some reloaded else current

end ProfilePage

namespace LoginPage

/-- Values submitted through the login form (`loginSchema`). -/
structure LoginForm where
  email : String
  password : String
  deriving DecidableEq

/-- Row payload of an insert into `login_history`, as built by
`recordLoginAttempt`; the network address is attributed by the store, not
supplied by the caller. -/
structure LoginInsert where
  user_id : String
  success : Bool
  device_info : String
  failure_reason : Option String
  deriving DecidableEq

/-- Observable effects of one sign-in submission, in program order. -/
inductive LEvent
  | insertLogin (rec : LoginInsert)
  | navigateHome
  | toastError (msg : String)
  deriving DecidableEq

/-- Outcome of `signInWithPassword`: either an error value, or acceptance
with the resolved user (present on every password sign-in success; the
code still guards on it). -/
inductive AuthResult
  | ok (user : Option String)
  | err (msg : String)
  deriving DecidableEq

/-- Embedding of `recordLoginAttempt` (Login.tsx lines 22-38): issues
exactly one `login_history` insert; the store's result value is discarded
without inspection and the surrounding try/catch swallows any failure, so
the outcome `_insertOk` does not influence behaviour and nothing is
re-raised. -/
def recordLoginAttempt (userId : String) (success : Bool)
    (deviceInfo : String) (failureReason : Option String)
    (_insertOk : Bool) : List LEvent :=
  [LEvent.insertLogin ⟨userId, success, deviceInfo, failureReason⟩]

/-- Body of the login `onSubmit` try block (Login.tsx lines 41-60): returns
the effects performed together with `Except.error msg` when the provider
error is re-raised after the audit insert attempt, or `Except.ok` when the
body ran to completion. -/
def onSubmitBody (data : LoginForm) (auth : AuthResult)
    (deviceInfo : String) (insertOk : Bool) :
    List LEvent × Except String Unit :=
  match auth with
  | AuthResult.err msg =>
      (recordLoginAttempt data.email false deviceInfo (some msg) insertOk,
       Except.error msg)
  | AuthResult.ok u =>
      ((match u with
        | some uid => recordLoginAttempt uid true deviceInfo none insertOk
        | none => []) ++ [LEvent.navigateHome],
       Except.ok ())

/-- Toast message shown by the catch block of the login `onSubmit`. -/
def signInFailedMsg : String := "Failed to sign in. Please check your credentials."

/-- Embedding of the login `onSubmit` (Login.tsx lines 40-64): the try body
runs, and a re-raised provider error is caught and turned into an error
toast after the effects already performed. -/
def onSubmit (data : LoginForm) (auth : AuthResult) (deviceInfo : String)
    (insertOk : Bool) : List LEvent :=
  match onSubmitBody data auth deviceInfo insertOk with
  | (tr, Except.ok _) => tr
  | (tr, Except.error _) => tr ++ [LEvent.toastError signInFailedMsg]

/-- Rows inserted into `login_history` during a submission, in order. -/
def insertedLogins (tr : List LEvent) : List LoginInsert :=
  tr.filterMap fun e =>
    match e with
    | LEvent.insertLogin r => some r
    | _ => none

end LoginPage

namespace ProfilePage

/-- Normalisation never records the empty string: `orNull` maps it to null. -/
lemma orNull_ne_empty (v : Option String) : orNull v ≠ some "" := by
  cases v with
  | none => simp [orNull]
  | some s =>
      simp only [orNull]
      split_ifs <;> simp_all

/-- Characterisation of the `profile_changes` rows inserted by one
submission: one row per strictly-differing field, in the fixed order first
name, last name, phone number, with phone values normalised by `orNull`;
independent of the store outcomes. -/
lemma onSubmit_insertedChanges (uid : String) (p : Profile) (d : ProfileForm)
    (now : String) (iok : String → Bool) (uok : Bool) :
    insertedChanges (onSubmit (some uid) (some p) d now iok uok)
      = (if d.firstName ≠ p.first_name then
           [⟨uid, "first_name", some p.first_name, some d.firstName, uid⟩] else [])
        ++ (if d.lastName ≠ p.last_name then
              [⟨uid, "last_name", some p.last_name, some d.lastName, uid⟩] else [])
        ++ (if d.phoneNumber ≠ p.phone_number then
              [⟨uid, "phone_number", orNull p.phone_number,
                orNull d.phoneNumber, uid⟩] else []) := by
  simp only [onSubmit, recordProfileChange]
  split_ifs <;> rfl

/-- Exactly one `profiles` update is issued per guarded submission, scoped
to the user identity and carrying all submitted values plus the fresh
timestamp, whatever the diff and the store outcomes. -/
lemma onSubmit_profileUpdates (uid : String) (p : Profile) (d : ProfileForm)
    (now : String) (iok : String → Bool) (uok : Bool) :
    profileUpdates (onSubmit (some uid) (some p) d now iok uok)
      = [(uid, ⟨d.firstName, d.lastName, d.phoneNumber, now⟩)] := by
  simp only [onSubmit, recordProfileChange]
  split_ifs <;> rfl

end ProfilePage

/-- C1 counterexample: a submission differing from the snapshot only in the
phone-number field (snapshot holds the empty string, submitted "555")
produces exactly one record, but its old value is null, not the snapshot
value: the row the claim demands (old value equal to the snapshot value,
the empty string) is not inserted. -/
theorem c1_counterexample :
    ProfilePage.insertedChanges (ProfilePage.onSubmit (some "u1")
        (some ⟨"u1", "Al", "Bo", some "", "t0", "t0"⟩)
        ⟨"Al", "Bo", some "555"⟩ "t1" (fun _ => true) true)
      = [⟨"u1", "phone_number", none, some "555", "u1"⟩]
    ∧ ProfilePage.diffCount ⟨"u1", "Al", "Bo", some "", "t0", "t0"⟩
        ⟨"Al", "Bo", some "555"⟩ = 1
    ∧ (⟨"u1", "phone_number", some "", some "555", "u1"⟩ :
          ProfilePage.ProfileChangeInsert)
        ∉ ProfilePage.insertedChanges (ProfilePage.onSubmit (some "u1")
            (some ⟨"u1", "Al", "Bo", some "", "t0", "t0"⟩)
            ⟨"Al", "Bo", some "555"⟩ "t1" (fun _ => true) true) := by
  decide

/-- C1 (amended): a submission differing from the snapshot in exactly K of
the 3 mutable fields inserts exactly K ProfileChangeRecord rows, each with
the snapshot value as old value and the submitted value as new value,
except that for the phone-number field both values are recorded with the
empty string normalised to null; every insert is issued strictly before
the single Profile row update. -/
theorem c1_audit_per_changed_field (uid : String) (p : ProfilePage.Profile)
    (d : ProfilePage.ProfileForm) (now : String) (iok : String → Bool)
    (uok : Bool) :
    ProfilePage.insertedChanges (ProfilePage.onSubmit (some uid) (some p) d now iok uok)
      = (if d.firstName ≠ p.first_name then
           [⟨uid, "first_name", some p.first_name, some d.firstName, uid⟩] else [])
        ++ (if d.lastName ≠ p.last_name then
              [⟨uid, "last_name", some p.last_name, some d.lastName, uid⟩] else [])
        ++ (if d.phoneNumber ≠ p.phone_number then
              [⟨uid, "phone_number", ProfilePage.orNull p.phone_number,
                ProfilePage.orNull d.phoneNumber, uid⟩] else [])
    ∧ (ProfilePage.insertedChanges
        (ProfilePage.onSubmit (some uid) (some p) d now iok uok)).length
      = ProfilePage.diffCount p d
    ∧ ProfilePage.profileUpdates (ProfilePage.onSubmit (some uid) (some p) d now iok uok)
      = [(uid, ⟨d.firstName, d.lastName, d.phoneNumber, now⟩)]
    ∧ ProfilePage.insertsPrecedeUpdates
        (ProfilePage.onSubmit (some uid) (some p) d now iok uok) = true := by
  refine ⟨ProfilePage.onSubmit_insertedChanges uid p d now iok uok, ?_,
    ProfilePage.onSubmit_profileUpdates uid p d now iok uok, ?_⟩
  · simp only [ProfilePage.onSubmit, ProfilePage.recordProfileChange,
      ProfilePage.diffCount]
    split_ifs <;> rfl
  · simp only [ProfilePage.onSubmit, ProfilePage.recordProfileChange]
    split_ifs <;> rfl

/-- C2 counterexample: with the other fields unchanged and the phone-number
field going from absent (snapshot null) to the empty string (submitted), a
ProfileChangeRecord row for the phone-number field IS produced, because the
diff compares with strict inequality; only the recorded values are
normalised (both come out null). -/
theorem c2_counterexample :
    ProfilePage.insertedChanges (ProfilePage.onSubmit (some "u1")
        (some ⟨"u1", "Al", "Bo", none, "t0", "t0"⟩)
        ⟨"Al", "Bo", some ""⟩ "t1" (fun _ => true) true)
      = [⟨"u1", "phone_number", none, none, "u1"⟩]
    ∧ ∃ r ∈ ProfilePage.insertedChanges (ProfilePage.onSubmit (some "u1")
        (some ⟨"u1", "Al", "Bo", none, "t0", "t0"⟩)
        ⟨"Al", "Bo", some ""⟩ "t1" (fun _ => true) true),
        r.field_changed = "phone_number" := by
  decide

/-- C2 (amended): a submission in which the phone-number field changes
between empty string and absent while the other fields are unchanged DOES
produce exactly one ProfileChangeRecord for the phone-number field (the
diff uses strict inequality), and normalisation makes both its old and new
values null. -/
theorem c2_phone_empty_absent_change_recorded (uid : String)
    (p : ProfilePage.Profile) (d : ProfilePage.ProfileForm) (now : String)
    (iok : String → Bool) (uok : Bool)
    (h1 : d.firstName = p.first_name) (h2 : d.lastName = p.last_name)
    (h3 : d.phoneNumber ≠ p.phone_number)
    (h4 : ProfilePage.orNull p.phone_number = none)
    (h5 : ProfilePage.orNull d.phoneNumber = none) :
    ProfilePage.insertedChanges (ProfilePage.onSubmit (some uid) (some p) d now iok uok)
      = [⟨uid, "phone_number", none, none, uid⟩] := by
  rw [ProfilePage.onSubmit_insertedChanges]
  simp [h1, h2, h3, h4, h5]

/-- C2 witness: the amended claim applied to a concrete submission going
from absent to empty string. -/
theorem c2_witness :
    ProfilePage.insertedChanges (ProfilePage.onSubmit (some "u1")
        (some ⟨"u1", "Al", "Bo", none, "t0", "t0"⟩)
        ⟨"Al", "Bo", some ""⟩ "t1" (fun _ => false) false)
      = [⟨"u1", "phone_number", none, none, "u1"⟩] :=
  c2_phone_empty_absent_change_recorded "u1" ⟨"u1", "Al", "Bo", none, "t0", "t0"⟩
    ⟨"Al", "Bo", some ""⟩ "t1" (fun _ => false) false
    (by decide) (by decide) (by decide) (by decide) (by decide)

/-- C3: audit-write failures are swallowed.  The store writes, toasts,
reloads and navigation of the profile mutation cycle do not depend on the
audit-insert outcomes, the single Profile update is issued either way, the
recorder itself returns the same visible effects on failure as on success,
the whole sign-in trace is independent of the login-history insert outcome,
and an accepted sign-in still reaches navigation whatever that outcome. -/
theorem c3_audit_failure_swallowed (uid : String) (p : ProfilePage.Profile)
    (d : ProfilePage.ProfileForm) (now : String) (iok iok2 : String → Bool)
    (uok : Bool) (f : String) (o n : Option String) (ok1 ok2 : Bool)
    (ld : LoginPage.LoginForm) (auth : LoginPage.AuthResult) (dev : String)
    (u2 : Option String) (lok lok2 : Bool) :
    ProfilePage.storeAndUiEvents (ProfilePage.onSubmit (some uid) (some p) d now iok uok)
      = ProfilePage.storeAndUiEvents (ProfilePage.onSubmit (some uid) (some p) d now iok2 uok)
    ∧ ProfilePage.profileUpdates (ProfilePage.onSubmit (some uid) (some p) d now iok uok)
      = [(uid, ⟨d.firstName, d.lastName, d.phoneNumber, now⟩)]
    ∧ ProfilePage.storeAndUiEvents (ProfilePage.recordProfileChange (some uid) f o n ok1)
      = ProfilePage.storeAndUiEvents (ProfilePage.recordProfileChange (some uid) f o n ok2)
    ∧ LoginPage.onSubmit ld auth dev lok = LoginPage.onSubmit ld auth dev lok2
    ∧ LoginPage.LEvent.navigateHome
        ∈ LoginPage.onSubmit ld (LoginPage.AuthResult.ok u2) dev lok := by
  refine ⟨?_, ProfilePage.onSubmit_profileUpdates uid p d now iok uok, ?_, ?_, ?_⟩
  · simp only [ProfilePage.onSubmit, ProfilePage.recordProfileChange]
    split_ifs <;> rfl
  · cases ok1 <;> cases ok2 <;> rfl
  · cases auth with
    | err m => rfl
    | ok u => cases u <;> rfl
  · cases u2 <;>
      simp [LoginPage.onSubmit, LoginPage.onSubmitBody, LoginPage.recordLoginAttempt]

/-- C4: a sign-in the provider rejects inserts exactly one login-history
row carrying the submitted email as subject identity, a false success flag
and the provider message as failure reason; the provider error is re-raised
only after that insert attempt completes (the try body ends with the error
after having issued the insert), whatever the insert outcome, and the catch
then shows the failure toast. -/
theorem c4_failed_signin_recorded (ld : LoginPage.LoginForm)
    (dev msg : String) (lok : Bool) :
    (LoginPage.onSubmitBody ld (LoginPage.AuthResult.err msg) dev lok).1
      = [LoginPage.LEvent.insertLogin ⟨ld.email, false, dev, some msg⟩]
    ∧ (LoginPage.onSubmitBody ld (LoginPage.AuthResult.err msg) dev lok).2
      = Except.error msg
    ∧ LoginPage.onSubmit ld (LoginPage.AuthResult.err msg) dev lok
      = [LoginPage.LEvent.insertLogin ⟨ld.email, false, dev, some msg⟩,
         LoginPage.LEvent.toastError LoginPage.signInFailedMsg]
    ∧ LoginPage.insertedLogins (LoginPage.onSubmit ld (LoginPage.AuthResult.err msg) dev lok)
      = [⟨ld.email, false, dev, some msg⟩] :=
  ⟨rfl, rfl, rfl, rfl⟩

/-- C5: a sign-in the provider accepts with resolved identity uid inserts
exactly one login-history row with a true success flag and uid as subject
identity, and the insert attempt is issued strictly before the navigation
into the authenticated area. -/
theorem c5_successful_signin_recorded (ld : LoginPage.LoginForm)
    (dev uid : String) (lok : Bool) :
    LoginPage.onSubmit ld (LoginPage.AuthResult.ok (some uid)) dev lok
      = [LoginPage.LEvent.insertLogin ⟨uid, true, dev, none⟩,
         LoginPage.LEvent.navigateHome]
    ∧ LoginPage.insertedLogins
        (LoginPage.onSubmit ld (LoginPage.AuthResult.ok (some uid)) dev lok)
      = [⟨uid, true, dev, none⟩] :=
  ⟨rfl, rfl⟩

/-- C6: when the Profile row update fails, whatever audit inserts happened
before, the cycle aborts: the in-memory snapshot keeps its previous value,
no success toast is shown, and neither the Profile nor the change history
is reloaded. -/
theorem c6_update_failure_aborts (uid : String) (p q : ProfilePage.Profile)
    (d : ProfilePage.ProfileForm) (now : String) (iok : String → Bool) :
    ProfilePage.finalSnapshot
        (ProfilePage.onSubmit (some uid) (some p) d now iok false) (some p) q
      = some p
    ∧ ProfilePage.PEvent.toastSuccess
        ∉ ProfilePage.onSubmit (some uid) (some p) d now iok false
    ∧ ProfilePage.PEvent.reloadProfile
        ∉ ProfilePage.onSubmit (some uid) (some p) d now iok false
    ∧ ProfilePage.PEvent.reloadChanges
        ∉ ProfilePage.onSubmit (some uid) (some p) d now iok false := by
  simp only [ProfilePage.onSubmit, ProfilePage.recordProfileChange,
    ProfilePage.finalSnapshot]
  split_ifs <;> simp_all

/-- C7: a submission in which no field differs from the snapshot inserts
zero ProfileChangeRecord rows yet still issues exactly one Profile update,
carrying all submitted values and the refreshed updated timestamp. -/
theorem c7_noop_submission_still_updates (uid : String)
    (p : ProfilePage.Profile) (d : ProfilePage.ProfileForm) (now : String)
    (iok : String → Bool) (uok : Bool)
    (h1 : d.firstName = p.first_name) (h2 : d.lastName = p.last_name)
    (h3 : d.phoneNumber = p.phone_number) :
    ProfilePage.insertedChanges (ProfilePage.onSubmit (some uid) (some p) d now iok uok)
      = []
    ∧ ProfilePage.profileUpdates (ProfilePage.onSubmit (some uid) (some p) d now iok uok)
      = [(uid, ⟨d.firstName, d.lastName, d.phoneNumber, now⟩)] := by
  refine ⟨?_, ProfilePage.onSubmit_profileUpdates uid p d now iok uok⟩
  rw [ProfilePage.onSubmit_insertedChanges]
  simp [h1, h2, h3]

/-- C7 witness: the no-op property applied to a concrete submission that
matches its snapshot on all three fields. -/
theorem c7_witness :
    ProfilePage.insertedChanges (ProfilePage.onSubmit (some "u1")
        (some ⟨"u1", "Al", "Bo", some "5", "t0", "t0"⟩)
        ⟨"Al", "Bo", some "5"⟩ "t1" (fun _ => true) true)
      = []
    ∧ ProfilePage.profileUpdates (ProfilePage.onSubmit (some "u1")
        (some ⟨"u1", "Al", "Bo", some "5", "t0", "t0"⟩)
        ⟨"Al", "Bo", some "5"⟩ "t1" (fun _ => true) true)
      = [("u1", ⟨"Al", "Bo", some "5", "t1"⟩)] :=
  c7_noop_submission_still_updates "u1" ⟨"u1", "Al", "Bo", some "5", "t0", "t0"⟩
    ⟨"Al", "Bo", some "5"⟩ "t1" (fun _ => true) true rfl rfl rfl

/-- C8: every ProfileChangeRecord inserted by the mutation cycle has its
actor identity equal to its subject identity. -/
theorem c8_changed_by_equals_user_id (uid : String) (p : ProfilePage.Profile)
    (d : ProfilePage.ProfileForm) (now : String) (iok : String → Bool)
    (uok : Bool) :
    (ProfilePage.insertedChanges
        (ProfilePage.onSubmit (some uid) (some p) d now iok uok)).all
      (fun r => r.changed_by == r.user_id) = true := by
  simp only [ProfilePage.onSubmit, ProfilePage.recordProfileChange]
  split_ifs <;> simp [ProfilePage.insertedChanges]

/-- C9: a submission made with no authenticated user or no loaded snapshot
performs no store writes at all and leaves the in-memory snapshot
unchanged. -/
theorem c9_guard_no_writes (user : Option String)
    (profile : Option ProfilePage.Profile) (q : ProfilePage.Profile)
    (d : ProfilePage.ProfileForm) (now : String) (iok : String → Bool)
    (uok : Bool) (h : user = none ∨ profile = none) :
    ProfilePage.onSubmit user profile d now iok uok = []
    ∧ ProfilePage.finalSnapshot (ProfilePage.onSubmit user profile d now iok uok)
        profile q = profile := by
  have htr : ProfilePage.onSubmit user profile d now iok uok = [] := by
    rcases h with h | h
    · subst h
      cases profile <;> rfl
    · subst h
      cases user <;> rfl
  refine ⟨htr, ?_⟩
  rw [htr]
  simp [ProfilePage.finalSnapshot]

/-- C9 witness: the guard property applied with no authenticated user. -/
theorem c9_witness :
    ProfilePage.onSubmit none (some ⟨"u1", "Al", "Bo", none, "t0", "t0"⟩)
        ⟨"A", "B", none⟩ "t1" (fun _ => true) true = []
    ∧ ProfilePage.finalSnapshot
        (ProfilePage.onSubmit none (some ⟨"u1", "Al", "Bo", none, "t0", "t0"⟩)
          ⟨"A", "B", none⟩ "t1" (fun _ => true) true)
        (some ⟨"u1", "Al", "Bo", none, "t0", "t0"⟩)
        ⟨"u2", "X", "Y", none, "t0", "t0"⟩
      = some ⟨"u1", "Al", "Bo", none, "t0", "t0"⟩ :=
  c9_guard_no_writes none (some ⟨"u1", "Al", "Bo", none, "t0", "t0"⟩)
    ⟨"u2", "X", "Y", none, "t0", "t0"⟩ ⟨"A", "B", none⟩ "t1" (fun _ => true) true
    (Or.inl rfl)

/-- C10: every inserted phone-number record has both values normalised so
that the empty string is never recorded (they equal `orNull` of the
snapshot and submitted values), while first-name and last-name records
carry the snapshot and submitted values verbatim. -/
theorem c10_phone_values_normalized (uid : String) (p : ProfilePage.Profile)
    (d : ProfilePage.ProfileForm) (now : String) (iok : String → Bool)
    (uok : Bool) :
    ∀ r ∈ ProfilePage.insertedChanges
        (ProfilePage.onSubmit (some uid) (some p) d now iok uok),
      (r.field_changed = "phone_number" →
          r.old_value ≠ some "" ∧ r.new_value ≠ some ""
          ∧ r.old_value = ProfilePage.orNull p.phone_number
          ∧ r.new_value = ProfilePage.orNull d.phoneNumber)
      ∧ (r.field_changed = "first_name" →
          r.old_value = some p.first_name ∧ r.new_value = some d.firstName)
      ∧ (r.field_changed = "last_name" →
          r.old_value = some p.last_name ∧ r.new_value = some d.lastName) := by
  intro r hr
  rw [ProfilePage.onSubmit_insertedChanges] at hr
  simp only [List.mem_append] at hr
  rcases hr with (hr | hr) | hr
  · split_ifs at hr <;> simp at hr
    subst hr
    exact ⟨fun hf => by simp at hf, fun _ => ⟨rfl, rfl⟩, fun hf => by simp at hf⟩
  · split_ifs at hr <;> simp at hr
    subst hr
    exact ⟨fun hf => by simp at hf, fun hf => by simp at hf, fun _ => ⟨rfl, rfl⟩⟩
  · split_ifs at hr <;> simp at hr
    subst hr
    exact ⟨fun _ => ⟨ProfilePage.orNull_ne_empty _, ProfilePage.orNull_ne_empty _,
      rfl, rfl⟩, fun hf => by simp at hf, fun hf => by simp at hf⟩

/-- C10 witness: the normalisation property applied to the phone record of
a concrete submission whose snapshot phone value is the empty string. -/
theorem c10_witness :
    ((⟨"u1", "phone_number", ProfilePage.orNull (some ""),
        ProfilePage.orNull (some "555"), "u1"⟩ : ProfilePage.ProfileChangeInsert)
      ∈ ProfilePage.insertedChanges (ProfilePage.onSubmit (some "u1")
          (some ⟨"u1", "Al", "Bo", some "", "t0", "t0"⟩)
          ⟨"Al", "Bo", some "555"⟩ "t1" (fun _ => true) true))
    ∧ ((ProfilePage.ProfileChangeInsert.mk "u1" "phone_number"
          (ProfilePage.orNull (some "")) (ProfilePage.orNull (some "555"))
          "u1").field_changed = "phone_number" →
        (ProfilePage.ProfileChangeInsert.mk "u1" "phone_number"
          (ProfilePage.orNull (some "")) (ProfilePage.orNull (some "555"))
          "u1").old_value ≠ some "") :=
  ⟨by decide,
   fun hf => ((c10_phone_values_normalized "u1"
      ⟨"u1", "Al", "Bo", some "", "t0", "t0"⟩ ⟨"Al", "Bo", some "555"⟩ "t1"
      (fun _ => true) true
      ⟨"u1", "phone_number", ProfilePage.orNull (some ""),
        ProfilePage.orNull (some "555"), "u1"⟩ (by decide)).1 hf).1⟩
